import Mathlib

/-!
Verification of `internal/service/pipes/source_parameters.go`: the schema
declaration and the expand/flatten mapping between the generic Terraform
configuration representation (`map[string]interface{}`) and the typed AWS
EventBridge Pipes source-parameter objects.

Modelling conventions (shallow embedding of the Go source):
- A Go `interface{}` value is `GoValue`; a `map[string]interface{}` is an
  association list `GoMap` (maps in the configuration have no duplicate
  keys; only lookup and the empty map are compared in theorems).
- A nil pointer / nil interface field is `Option.none`; a Go nil slice is
  the empty list.
- Machine integers stay `Int`; the `int32(v)` conversion performed by the
  source is `toInt32`, an explicit wrap into the int32 range.
- A checked type assertion `v, ok := x.(T)` is a total function returning
  `Option`; an unchecked assertion `x.(T)` can panic, so every function
  whose body can reach one returns `Except Unit`, where `.error ()` is the
  panic outcome.
- Named string types of the AWS SDK (start positions, partial-batch enums)
  are represented by their underlying `String`; `*int32` by `Option Int`.
-/

namespace Pipes

/-- A Go `interface{}` value as it occurs in a Terraform flat configuration:
nil, int, string, `[]interface{}` or `map[string]interface{}`. -/
inductive GoValue where
  | vnil : GoValue
  | vint : Int → GoValue
  | vstr : String → GoValue
  | vlist : List GoValue → GoValue
  | vmap : List (String × GoValue) → GoValue

/-- A Go `map[string]interface{}` as an association list. -/
abbrev GoMap := List (String × GoValue)

/-- Go map indexing `m[k]`: the nil interface when the key is absent. -/
def lookupKey (m : GoMap) (k : String) : GoValue :=
  match m with
  | [] => .vnil
  | (k', v) :: rest => if k' = k then v else lookupKey rest k

/-- Checked type assertion `.(int)`. -/
def GoValue.asInt : GoValue → Option Int
  | .vint n => some n
  | _ => none

/-- Checked type assertion `.(string)`. -/
def GoValue.asStr : GoValue → Option String
  | .vstr s => some s
  | _ => none

/-- Checked type assertion `.([]interface{})`. -/
def GoValue.asList : GoValue → Option (List GoValue)
  | .vlist l => some l
  | _ => none

/-- Whether the map contains the key. -/
def hasKey (m : GoMap) (k : String) : Bool :=
  match m with
  | [] => false
  | (k', _) :: rest => k' == k || hasKey rest k

/-- The Go conversion `int32(v)`: wrap into the int32 range. -/
def toInt32 (v : Int) : Int :=
  (v + 2147483648) % 4294967296 - 2147483648

/-- The source pattern `if v, ok := tfMap[k].(int); ok && v != 0 {
field = aws.Int32(int32(v)) }`: the field value produced for an optional
int32 field. -/
def expandOptInt32 (m : GoMap) (k : String) : Option Int :=
  match (lookupKey m k).asInt with
  | some v => if v ≠ 0 then some (toInt32 v) else none
  | none => none

/-- The source pattern `if v, ok := tfMap[k].(string); ok && v != "" {
... }`: the string value when present and non-empty. -/
def getNonEmptyString (m : GoMap) (k : String) : Option String :=
  match (lookupKey m k).asStr with
  | some v => if v ≠ "" then some v else none
  | none => none

/-- The source pattern `if v, ok := tfMap[k].([]interface{}); ok &&
len(v) > 0 && v[0] != nil { f(v[0].(map[string]interface{})) }`:
`.ok none` when the guard fails (field left untouched), `.ok (some mm)`
when the head is a map, `.error ()` when the unchecked cast of a non-nil,
non-map head panics. -/
def headMapArg (m : GoMap) (k : String) : Except Unit (Option GoMap) :=
  match (lookupKey m k).asList with
  | some (v :: _) =>
    match v with
    | .vnil => .ok none
    | .vmap mm => .ok (some mm)
    | _ => .error ()
  | some [] => .ok none
  | none => .ok none

/-- Embedding of storing a possibly-nil Go map value in an interface. -/
def mapValue : Option GoMap → GoValue
  | none => .vnil
  | some mm => .vmap mm

/-- Explicit bind on `Except Unit`, propagating a panic. -/
def exceptBind {α β : Type} (x : Except Unit α) (f : α → Except Unit β) :
    Except Unit β :=
  match x with
  | .error e => .error e
  | .ok a => f a

/-! ### Go `time` model

The source calls `time.Parse(time.RFC3339, v)` (discarding the error; Go
returns the zero `time.Time` together with an error) and
`aws.ToTime(v).Format(time.RFC3339)`. The Go standard library is embedded
here: `GoTime` is the broken-down value of a `time.Time`, `timeParseRFC3339`
implements the RFC 3339 layout `2006-01-02T15:04:05Z07:00` (fixed-width
fields, optional fractional seconds, `Z` or a signed `hh:mm` offset, with
range checks), and `timeFormatRFC3339` the corresponding formatting, which
prints no fractional seconds and prints a zero offset as `Z`. -/

/-- Broken-down `time.Time` value: date, time of day, nanoseconds and the
zone offset in minutes east of UTC. -/
structure GoTime where
  year : Nat
  month : Nat
  day : Nat
  hour : Nat
  minute : Nat
  second : Nat
  nsec : Nat
  offsetMinutes : Int
  deriving DecidableEq, Repr

/-- The zero `time.Time`: January 1, year 1, 00:00:00 UTC. -/
def zeroGoTime : GoTime := ⟨1, 1, 1, 0, 0, 0, 0, 0⟩

/-- Decimal digit value of a character, if it is a digit. -/
def digitOf (c : Char) : Option Nat :=
  if '0' ≤ c ∧ c ≤ '9' then some (c.toNat - 48) else none

/-- Read exactly two digits. -/
def read2 : List Char → Option (Nat × List Char)
  | c1 :: c2 :: rest =>
    match digitOf c1, digitOf c2 with
    | some d1, some d2 => some (d1 * 10 + d2, rest)
    | _, _ => none
  | _ => none

/-- Read exactly four digits. -/
def read4 : List Char → Option (Nat × List Char)
  | c1 :: c2 :: c3 :: c4 :: rest =>
    match digitOf c1, digitOf c2, digitOf c3, digitOf c4 with
    | some d1, some d2, some d3, some d4 =>
      some (((d1 * 10 + d2) * 10 + d3) * 10 + d4, rest)
    | _, _, _, _ => none
  | _ => none

/-- Require a literal character. -/
def expectChar (c : Char) : List Char → Option (List Char)
  | c' :: rest => if c' = c then some rest else none
  | [] => none

/-- The longest run of leading digits and the remainder. -/
def takeDigits : List Char → List Nat × List Char
  | [] => ([], [])
  | c :: rest =>
    match digitOf c with
    | some d =>
      let (ds, r) := takeDigits rest
      (d :: ds, r)
    | none => ([], c :: rest)

/-- Nanoseconds from fractional-second digits: the first nine digits,
scaled to nanosecond precision (further digits are truncated, as Go
does). -/
def nsecOfDigits (ds : List Nat) : Nat :=
  (ds.take 9).foldl (fun a d => a * 10 + d) 0 * 10 ^ (9 - min 9 ds.length)

/-- Optional fractional seconds: a period followed by at least one digit. -/
def parseFraction : List Char → Option (Nat × List Char)
  | '.' :: rest =>
    match takeDigits rest with
    | ([], _) => none
    | (ds, r) => some (nsecOfDigits ds, r)
  | cs => some (0, cs)

/-- The zone designator, which must end the input: `Z` for UTC or a signed
`hh:mm` offset (minutes east of UTC). -/
def parseOffset : List Char → Option Int
  | ['Z'] => some 0
  | c :: rest =>
    if c = '+' ∨ c = '-' then
      match rest with
      | [h1, h2, ':', m1, m2] =>
        match digitOf h1, digitOf h2, digitOf m1, digitOf m2 with
        | some a, some b, some x, some y =>
          let hh := a * 10 + b
          let mm := x * 10 + y
          if hh ≤ 23 ∧ mm ≤ 59 then
            let total : Int := Int.ofNat (hh * 60 + mm)
            some (if c = '-' then -total else total)
          else none
        | _, _, _, _ => none
      | _ => none
    else none
  | [] => none

/-- Whether the year is a leap year in the proleptic Gregorian calendar. -/
def isLeapYear (y : Nat) : Bool :=
  y % 4 = 0 && (y % 100 ≠ 0 || y % 400 = 0)

/-- Number of days in the given month of the given year. -/
def daysIn (y m : Nat) : Nat :=
  if m = 2 then (if isLeapYear y then 29 else 28)
  else if m = 4 ∨ m = 6 ∨ m = 9 ∨ m = 11 then 30
  else 31

/-- `time.Parse(time.RFC3339, s)`: `none` is the error outcome (the caller
in the source discards the error, in which case Go has returned the zero
`time.Time`). -/
def timeParseRFC3339 (s : String) : Option GoTime :=
  match read4 s.data with
  | none => none
  | some (year, r1) =>
  match expectChar '-' r1 with
  | none => none
  | some r2 =>
  match read2 r2 with
  | none => none
  | some (month, r3) =>
  match expectChar '-' r3 with
  | none => none
  | some r4 =>
  match read2 r4 with
  | none => none
  | some (day, r5) =>
  match expectChar 'T' r5 with
  | none => none
  | some r6 =>
  match read2 r6 with
  | none => none
  | some (hour, r7) =>
  match expectChar ':' r7 with
  | none => none
  | some r8 =>
  match read2 r8 with
  | none => none
  | some (minute, r9) =>
  match expectChar ':' r9 with
  | none => none
  | some r10 =>
  match read2 r10 with
  | none => none
  | some (second, r11) =>
  match parseFraction r11 with
  | none => none
  | some (nsec, r12) =>
  match parseOffset r12 with
  | none => none
  | some off =>
    if month < 1 ∨ 12 < month then none
    else if day < 1 ∨ daysIn year month < day then none
    else if 23 < hour ∨ 59 < minute ∨ 59 < second then none
    else some ⟨year, month, day, hour, minute, second, nsec, off⟩

/-- The character of a decimal digit. -/
def digitChar (n : Nat) : Char := Char.ofNat (48 + n % 10)

/-- Two-digit zero-padded decimal. -/
def pad2 (n : Nat) : String := String.mk [digitChar (n / 10), digitChar n]

/-- Four-digit zero-padded decimal. -/
def pad4 (n : Nat) : String :=
  String.mk [digitChar (n / 1000), digitChar (n / 100), digitChar (n / 10),
    digitChar n]

/-- `t.Format(time.RFC3339)`: layout `2006-01-02T15:04:05Z07:00`, printing
no fractional seconds and a zero offset as `Z`. -/
def timeFormatRFC3339 (t : GoTime) : String :=
  pad4 t.year ++ "-" ++ pad2 t.month ++ "-" ++ pad2 t.day ++ "T" ++
    pad2 t.hour ++ ":" ++ pad2 t.minute ++ ":" ++ pad2 t.second ++
    (if t.offsetMinutes = 0 then "Z"
     else (if t.offsetMinutes < 0 then "-" else "+") ++
       pad2 (t.offsetMinutes.natAbs / 60) ++ ":" ++
       pad2 (t.offsetMinutes.natAbs % 60))

/-! ### Typed AWS SDK objects

The `types` package of the AWS SDK for Go, as used by the source: each
pointer field is an `Option`, each named string type its underlying
`String`, and each union interface a closed inductive with an extra
`unknown` member standing for any other dynamic type (such as the SDK
`UnknownUnionMember`). -/

/-- `types.DeadLetterConfig`. -/
structure DeadLetterConfig where
  Arn : Option String
  deriving DecidableEq, Repr

/-- `types.Filter`. -/
structure Filter where
  Pattern : Option String
  deriving DecidableEq, Repr

/-- `types.FilterCriteria` (a nil `Filters` slice is the empty list). -/
structure FilterCriteria where
  Filters : List Filter
  deriving DecidableEq, Repr

/-- `types.MQBrokerAccessCredentialsMemberBasicAuth`. -/
structure MQBrokerAccessCredentialsMemberBasicAuth where
  Value : String
  deriving DecidableEq, Repr

/-- The `types.MQBrokerAccessCredentials` interface. -/
inductive MQBrokerAccessCredentials where
  | basicAuth : MQBrokerAccessCredentialsMemberBasicAuth →
      MQBrokerAccessCredentials
  | unknown : String → MQBrokerAccessCredentials
  deriving DecidableEq, Repr

/-- `types.MSKAccessCredentialsMemberClientCertificateTlsAuth`. -/
structure MSKAccessCredentialsMemberClientCertificateTlsAuth where
  Value : String
  deriving DecidableEq, Repr

/-- `types.MSKAccessCredentialsMemberSaslScram512Auth`. -/
structure MSKAccessCredentialsMemberSaslScram512Auth where
  Value : String
  deriving DecidableEq, Repr

/-- The `types.MSKAccessCredentials` interface. -/
inductive MSKAccessCredentials where
  | clientCertificateTlsAuth :
      MSKAccessCredentialsMemberClientCertificateTlsAuth →
      MSKAccessCredentials
  | saslScram512Auth : MSKAccessCredentialsMemberSaslScram512Auth →
      MSKAccessCredentials
  | unknown : String → MSKAccessCredentials
  deriving DecidableEq, Repr

/-- The `types.SelfManagedKafkaAccessConfigurationCredentials` interface. -/
inductive SelfManagedKafkaAccessConfigurationCredentials where
  | basicAuth : String → SelfManagedKafkaAccessConfigurationCredentials
  | clientCertificateTlsAuth : String →
      SelfManagedKafkaAccessConfigurationCredentials
  | saslScram256Auth : String →
      SelfManagedKafkaAccessConfigurationCredentials
  | saslScram512Auth : String →
      SelfManagedKafkaAccessConfigurationCredentials
  | unknown : String → SelfManagedKafkaAccessConfigurationCredentials
  deriving DecidableEq, Repr

/-- `types.SelfManagedKafkaAccessConfigurationVpc`. -/
structure SelfManagedKafkaAccessConfigurationVpc where
  SecurityGroup : List String
  Subnets : List String
  deriving DecidableEq, Repr

/-- `types.PipeSourceActiveMQBrokerParameters`. -/
structure PipeSourceActiveMQBrokerParameters where
  BatchSize : Option Int
  Credentials : Option MQBrokerAccessCredentials
  MaximumBatchingWindowInSeconds : Option Int
  QueueName : Option String
  deriving DecidableEq, Repr

/-- `types.PipeSourceDynamoDBStreamParameters`. -/
structure PipeSourceDynamoDBStreamParameters where
  BatchSize : Option Int
  DeadLetterConfig : Option DeadLetterConfig
  MaximumBatchingWindowInSeconds : Option Int
  MaximumRecordAgeInSeconds : Option Int
  MaximumRetryAttempts : Option Int
  OnPartialBatchItemFailure : String
  ParallelizationFactor : Option Int
  StartingPosition : String
  deriving DecidableEq, Repr

/-- `types.PipeSourceKinesisStreamParameters`. -/
structure PipeSourceKinesisStreamParameters where
  BatchSize : Option Int
  DeadLetterConfig : Option DeadLetterConfig
  MaximumBatchingWindowInSeconds : Option Int
  MaximumRecordAgeInSeconds : Option Int
  MaximumRetryAttempts : Option Int
  OnPartialBatchItemFailure : String
  ParallelizationFactor : Option Int
  StartingPosition : String
  StartingPositionTimestamp : Option GoTime
  deriving DecidableEq, Repr

/-- `types.PipeSourceManagedStreamingKafkaParameters`. -/
structure PipeSourceManagedStreamingKafkaParameters where
  BatchSize : Option Int
  ConsumerGroupID : Option String
  Credentials : Option MSKAccessCredentials
  MaximumBatchingWindowInSeconds : Option Int
  StartingPosition : String
  TopicName : Option String
  deriving DecidableEq, Repr

/-- `types.PipeSourceRabbitMQBrokerParameters`. -/
structure PipeSourceRabbitMQBrokerParameters where
  BatchSize : Option Int
  Credentials : Option MQBrokerAccessCredentials
  MaximumBatchingWindowInSeconds : Option Int
  QueueName : Option String
  VirtualHost : Option String
  deriving DecidableEq, Repr

/-- `types.PipeSourceSelfManagedKafkaParameters`. -/
structure PipeSourceSelfManagedKafkaParameters where
  AdditionalBootstrapServers : List String
  BatchSize : Option Int
  ConsumerGroupID : Option String
  Credentials : Option SelfManagedKafkaAccessConfigurationCredentials
  MaximumBatchingWindowInSeconds : Option Int
  ServerRootCaCertificate : Option String
  StartingPosition : String
  TopicName : Option String
  Vpc : Option SelfManagedKafkaAccessConfigurationVpc
  deriving DecidableEq, Repr

/-- `types.PipeSourceSqsQueueParameters`. -/
structure PipeSourceSqsQueueParameters where
  BatchSize : Option Int
  MaximumBatchingWindowInSeconds : Option Int
  deriving DecidableEq, Repr

/-- `types.PipeSourceParameters`. -/
structure PipeSourceParameters where
  ActiveMQBrokerParameters : Option PipeSourceActiveMQBrokerParameters
  DynamoDBStreamParameters : Option PipeSourceDynamoDBStreamParameters
  FilterCriteria : Option FilterCriteria
  KinesisStreamParameters : Option PipeSourceKinesisStreamParameters
  ManagedStreamingKafkaParameters :
    Option PipeSourceManagedStreamingKafkaParameters
  RabbitMQBrokerParameters : Option PipeSourceRabbitMQBrokerParameters
  SelfManagedKafkaParameters : Option PipeSourceSelfManagedKafkaParameters
  SqsQueueParameters : Option PipeSourceSqsQueueParameters
  deriving DecidableEq, Repr

/-! ### Expand functions (source lines 625-945) -/

/-- `expandFilter`. -/
def expandFilter : Option GoMap → Option Filter
  | none => none
  | some m => some { Pattern := getNonEmptyString m "pattern" }

/-- `expandFilters`: skips entries that are not maps; `expandFilter` never
returns nil for a non-nil map, so every map entry is kept. -/
def expandFilters (tfList : List GoValue) : List Filter :=
  if tfList.length = 0 then []
  else
    tfList.filterMap fun v =>
      match v with
      | .vmap mm => expandFilter (some mm)
      | _ => none

/-- `expandFilterCriteria`. -/
def expandFilterCriteria : Option GoMap → Option FilterCriteria
  | none => none
  | some m =>
    some { Filters :=
      match (lookupKey m "filter").asList with
      | some v => if v.length > 0 then expandFilters v else []
      | none => [] }

/-- `expandDeadLetterConfig`. -/
def expandDeadLetterConfig : Option GoMap → Option DeadLetterConfig
  | none => none
  | some m => some { Arn := getNonEmptyString m "arn" }

/-- `expandMQBrokerAccessCredentialsMemberBasicAuth`. -/
def expandMQBrokerAccessCredentialsMemberBasicAuth :
    Option GoMap → Option MQBrokerAccessCredentials
  | none => none
  | some m =>
    some (.basicAuth { Value := (getNonEmptyString m "basic_auth").getD "" })

/-- `expandPipeSourceActiveMQBrokerParameters`. -/
def expandPipeSourceActiveMQBrokerParameters :
    Option GoMap → Except Unit (Option PipeSourceActiveMQBrokerParameters)
  | none => .ok none
  | some m =>
    exceptBind (headMapArg m "credentials") fun credArg =>
    .ok (some {
      BatchSize := expandOptInt32 m "batch_size"
      Credentials :=
        match credArg with
        | some mm => expandMQBrokerAccessCredentialsMemberBasicAuth (some mm)
        | none => none
      MaximumBatchingWindowInSeconds :=
        expandOptInt32 m "maximum_batching_window_in_seconds"
      QueueName := getNonEmptyString m "queue_name" })

/-- `expandPipeSourceDynamoDBStreamParameters`. -/
def expandPipeSourceDynamoDBStreamParameters :
    Option GoMap → Except Unit (Option PipeSourceDynamoDBStreamParameters)
  | none => .ok none
  | some m =>
    exceptBind (headMapArg m "dead_letter_config") fun dlcArg =>
    .ok (some {
      BatchSize := expandOptInt32 m "batch_size"
      DeadLetterConfig :=
        match dlcArg with
        | some mm => expandDeadLetterConfig (some mm)
        | none => none
      MaximumBatchingWindowInSeconds :=
        expandOptInt32 m "maximum_batching_window_in_seconds"
      MaximumRecordAgeInSeconds :=
        expandOptInt32 m "maximum_record_age_in_seconds"
      MaximumRetryAttempts := expandOptInt32 m "maximum_retry_attempts"
      OnPartialBatchItemFailure :=
        (getNonEmptyString m "on_partial_batch_item_failure").getD ""
      ParallelizationFactor := expandOptInt32 m "parallelization_factor"
      StartingPosition := (getNonEmptyString m "starting_position").getD "" })

/-- `expandPipeSourceKinesisStreamParameters`. The timestamp field mirrors
`v, _ := time.Parse(time.RFC3339, v); apiObject.StartingPositionTimestamp =
aws.Time(v)`: the parse error is discarded and the zero time used in its
place. -/
def expandPipeSourceKinesisStreamParameters :
    Option GoMap → Except Unit (Option PipeSourceKinesisStreamParameters)
  | none => .ok none
  | some m =>
    exceptBind (headMapArg m "dead_letter_config") fun dlcArg =>
    .ok (some {
      BatchSize := expandOptInt32 m "batch_size"
      DeadLetterConfig :=
        match dlcArg with
        | some mm => expandDeadLetterConfig (some mm)
        | none => none
      MaximumBatchingWindowInSeconds :=
        expandOptInt32 m "maximum_batching_window_in_seconds"
      MaximumRecordAgeInSeconds :=
        expandOptInt32 m "maximum_record_age_in_seconds"
      MaximumRetryAttempts := expandOptInt32 m "maximum_retry_attempts"
      OnPartialBatchItemFailure :=
        (getNonEmptyString m "on_partial_batch_item_failure").getD ""
      ParallelizationFactor := expandOptInt32 m "parallelization_factor"
      StartingPosition := (getNonEmptyString m "starting_position").getD ""
      StartingPositionTimestamp :=
        match getNonEmptyString m "starting_position_timestamp" with
        | some v => some ((timeParseRFC3339 v).getD zeroGoTime)
        | none => none })

/-- `expandMSKAccessCredentials`: the first non-empty credential in the
textual order of the source (client certificate, then SASL/SCRAM-512). -/
def expandMSKAccessCredentials :
    Option GoMap → Option MSKAccessCredentials
  | none => none
  | some m =>
    match getNonEmptyString m "client_certificate_tls_auth" with
    | some v => some (.clientCertificateTlsAuth { Value := v })
    | none =>
      match getNonEmptyString m "sasl_scram_512_auth" with
      | some v => some (.saslScram512Auth { Value := v })
      | none => none

/-- `expandPipeSourceManagedStreamingKafkaParameters`. -/
def expandPipeSourceManagedStreamingKafkaParameters :
    Option GoMap →
    Except Unit (Option PipeSourceManagedStreamingKafkaParameters)
  | none => .ok none
  | some m =>
    exceptBind (headMapArg m "credentials") fun credArg =>
    .ok (some {
      BatchSize := expandOptInt32 m "batch_size"
      ConsumerGroupID := getNonEmptyString m "consumer_group_id"
      Credentials :=
        match credArg with
        | some mm => expandMSKAccessCredentials (some mm)
        | none => none
      MaximumBatchingWindowInSeconds :=
        expandOptInt32 m "maximum_batching_window_in_seconds"
      StartingPosition := (getNonEmptyString m "starting_position").getD ""
      TopicName := getNonEmptyString m "topic_name" })

/-- `expandPipeSourceSqsQueueParameters`. -/
def expandPipeSourceSqsQueueParameters :
    Option GoMap → Option PipeSourceSqsQueueParameters
  | none => none
  | some m =>
    some {
      BatchSize := expandOptInt32 m "batch_size"
      MaximumBatchingWindowInSeconds :=
        expandOptInt32 m "maximum_batching_window_in_seconds" }

/-- The per-variant step of `expandPipeSourceParameters` for a variant
whose expansion can itself panic. -/
def expandVariant {α : Type} (m : GoMap) (k : String)
    (f : Option GoMap → Except Unit (Option α)) : Except Unit (Option α) :=
  exceptBind (headMapArg m k) fun arg =>
    match arg with
    | none => .ok none
    | some mm => f (some mm)

/-- The per-variant step of `expandPipeSourceParameters` for a variant
whose expansion is panic-free. -/
def expandVariantP {α : Type} (m : GoMap) (k : String)
    (f : Option GoMap → Option α) : Except Unit (Option α) :=
  exceptBind (headMapArg m k) fun arg =>
    match arg with
    | none => .ok none
    | some mm => .ok (f (some mm))

/-- `expandPipeSourceParameters`. The source handles the six keys below and
has a TODO comment in place of `rabbit_mq_broker` and `self_managed_kafka`
handling, so those two fields are never assigned. -/
def expandPipeSourceParameters :
    Option GoMap → Except Unit (Option PipeSourceParameters)
  | none => .ok none
  | some m =>
    exceptBind
      (expandVariant m "activemq_broker_parameters"
        expandPipeSourceActiveMQBrokerParameters) fun amq =>
    exceptBind
      (expandVariant m "dynamodb_stream_parameters"
        expandPipeSourceDynamoDBStreamParameters) fun ddb =>
    exceptBind
      (expandVariantP m "filter_criteria" expandFilterCriteria) fun fc =>
    exceptBind
      (expandVariant m "kinesis_stream_parameters"
        expandPipeSourceKinesisStreamParameters) fun ks =>
    exceptBind
      (expandVariant m "managed_streaming_kafka_parameters"
        expandPipeSourceManagedStreamingKafkaParameters) fun msk =>
    exceptBind
      (expandVariantP m "sqs_queue_parameters"
        expandPipeSourceSqsQueueParameters) fun sqs =>
    .ok (some {
      ActiveMQBrokerParameters := amq
      DynamoDBStreamParameters := ddb
      FilterCriteria := fc
      KinesisStreamParameters := ks
      ManagedStreamingKafkaParameters := msk
      RabbitMQBrokerParameters := none
      SelfManagedKafkaParameters := none
      SqsQueueParameters := sqs })

/-! ### Flatten functions (source lines 947-1235) -/

/-- `flattenFilter`. -/
def flattenFilter (apiObject : Filter) : GoMap :=
  match apiObject.Pattern with
  | some v => [("pattern", GoValue.vstr v)]
  | none => []

/-- `flattenFilters`. -/
def flattenFilters (apiObjects : List Filter) : List GoValue :=
  if apiObjects.length = 0 then []
  else apiObjects.map fun o => GoValue.vmap (flattenFilter o)

/-- `flattenFilterCriteria` (the `Filters != nil` test on the slice is the
non-emptiness test under the nil-slice-as-empty-list convention). -/
def flattenFilterCriteria : Option FilterCriteria → Option GoMap
  | none => none
  | some o =>
    some (match o.Filters with
      | [] => []
      | _ => [("filter", GoValue.vlist (flattenFilters o.Filters))])

/-- `flattenDeadLetterConfig`. -/
def flattenDeadLetterConfig : Option DeadLetterConfig → Option GoMap
  | none => none
  | some o =>
    some (match o.Arn with
      | some v => [("arn", GoValue.vstr v)]
      | none => [])

/-- `flattenMQBrokerAccessCredentialsMemberBasicAuth`. -/
def flattenMQBrokerAccessCredentialsMemberBasicAuth :
    Option MQBrokerAccessCredentialsMemberBasicAuth → Option GoMap
  | none => none
  | some o =>
    some (if o.Value ≠ "" then [("basic_auth", GoValue.vstr o.Value)] else [])

/-- `flattenPipeSourceActiveMQBrokerParameters`: the credentials field is
read through the unchecked cast
`v.(*types.MQBrokerAccessCredentialsMemberBasicAuth)`, which panics on any
other member. -/
def flattenPipeSourceActiveMQBrokerParameters :
    Option PipeSourceActiveMQBrokerParameters → Except Unit (Option GoMap)
  | none => .ok none
  | some o =>
    exceptBind
      (match o.Credentials with
       | none => .ok []
       | some (.basicAuth mb) =>
         .ok [("credentials", GoValue.vlist
           [mapValue (flattenMQBrokerAccessCredentialsMemberBasicAuth
             (some mb))])]
       | some (.unknown _) => .error ()) fun credPart =>
    .ok (some (
      (match o.BatchSize with
       | some v => [("batch_size", GoValue.vint v)]
       | none => []) ++
      credPart ++
      (match o.MaximumBatchingWindowInSeconds with
       | some v => [("maximum_batching_window_in_seconds", GoValue.vint v)]
       | none => []) ++
      (match o.QueueName with
       | some v => [("queue_name", GoValue.vstr v)]
       | none => [])))

/-- `flattenPipeSourceDynamoDBStreamParameters`. -/
def flattenPipeSourceDynamoDBStreamParameters :
    Option PipeSourceDynamoDBStreamParameters → Option GoMap
  | none => none
  | some o =>
    some (
      (match o.BatchSize with
       | some v => [("batch_size", GoValue.vint v)]
       | none => []) ++
      (match o.DeadLetterConfig with
       | some v => [("dead_letter_config", GoValue.vlist
           [mapValue (flattenDeadLetterConfig (some v))])]
       | none => []) ++
      (match o.MaximumBatchingWindowInSeconds with
       | some v => [("maximum_batching_window_in_seconds", GoValue.vint v)]
       | none => []) ++
      (match o.MaximumRecordAgeInSeconds with
       | some v => [("maximum_record_age_in_seconds", GoValue.vint v)]
       | none => []) ++
      (match o.MaximumRetryAttempts with
       | some v => [("maximum_retry_attempts", GoValue.vint v)]
       | none => []) ++
      (if o.OnPartialBatchItemFailure ≠ "" then
        [("on_partial_batch_item_failure",
          GoValue.vstr o.OnPartialBatchItemFailure)]
       else []) ++
      (match o.ParallelizationFactor with
       | some v => [("parallelization_factor", GoValue.vint v)]
       | none => []) ++
      (if o.StartingPosition ≠ "" then
        [("starting_position", GoValue.vstr o.StartingPosition)]
       else []))

/-- `flattenPipeSourceKinesisStreamParameters`. -/
def flattenPipeSourceKinesisStreamParameters :
    Option PipeSourceKinesisStreamParameters → Option GoMap
  | none => none
  | some o =>
    some (
      (match o.BatchSize with
       | some v => [("batch_size", GoValue.vint v)]
       | none => []) ++
      (match o.DeadLetterConfig with
       | some v => [("dead_letter_config", GoValue.vlist
           [mapValue (flattenDeadLetterConfig (some v))])]
       | none => []) ++
      (match o.MaximumBatchingWindowInSeconds with
       | some v => [("maximum_batching_window_in_seconds", GoValue.vint v)]
       | none => []) ++
      (match o.MaximumRecordAgeInSeconds with
       | some v => [("maximum_record_age_in_seconds", GoValue.vint v)]
       | none => []) ++
      (match o.MaximumRetryAttempts with
       | some v => [("maximum_retry_attempts", GoValue.vint v)]
       | none => []) ++
      (if o.OnPartialBatchItemFailure ≠ "" then
        [("on_partial_batch_item_failure",
          GoValue.vstr o.OnPartialBatchItemFailure)]
       else []) ++
      (match o.ParallelizationFactor with
       | some v => [("parallelization_factor", GoValue.vint v)]
       | none => []) ++
      (if o.StartingPosition ≠ "" then
        [("starting_position", GoValue.vstr o.StartingPosition)]
       else []) ++
      (match o.StartingPositionTimestamp with
       | some t => [("starting_position_timestamp",
           GoValue.vstr (timeFormatRFC3339 t))]
       | none => []))

/-- `flattenMSKAccessCredentials`: two independent checked casts on the
interface value, so at most one of the two keys is written. -/
def flattenMSKAccessCredentials :
    Option MSKAccessCredentials → Option GoMap
  | none => none
  | some c =>
    some (
      (match c with
       | .clientCertificateTlsAuth mm =>
         if mm.Value ≠ "" then
           [("client_certificate_tls_auth", GoValue.vstr mm.Value)]
         else []
       | _ => []) ++
      (match c with
       | .saslScram512Auth mm =>
         if mm.Value ≠ "" then
           [("sasl_scram_512_auth", GoValue.vstr mm.Value)]
         else []
       | _ => []))

/-- `flattenPipeSourceManagedStreamingKafkaParameters`. -/
def flattenPipeSourceManagedStreamingKafkaParameters :
    Option PipeSourceManagedStreamingKafkaParameters → Option GoMap
  | none => none
  | some o =>
    some (
      (match o.BatchSize with
       | some v => [("batch_size", GoValue.vint v)]
       | none => []) ++
      (match o.ConsumerGroupID with
       | some v => [("consumer_group_id", GoValue.vstr v)]
       | none => []) ++
      (match o.Credentials with
       | some c => [("credentials", GoValue.vlist
           [mapValue (flattenMSKAccessCredentials (some c))])]
       | none => []) ++
      (match o.MaximumBatchingWindowInSeconds with
       | some v => [("maximum_batching_window_in_seconds", GoValue.vint v)]
       | none => []) ++
      (if o.StartingPosition ≠ "" then
        [("starting_position", GoValue.vstr o.StartingPosition)]
       else []) ++
      (match o.TopicName with
       | some v => [("topic_name", GoValue.vstr v)]
       | none => []))

/-- `flattenPipeSourceSqsQueueParameters`. -/
def flattenPipeSourceSqsQueueParameters :
    Option PipeSourceSqsQueueParameters → Option GoMap
  | none => none
  | some o =>
    some (
      (match o.BatchSize with
       | some v => [("batch_size", GoValue.vint v)]
       | none => []) ++
      (match o.MaximumBatchingWindowInSeconds with
       | some v => [("maximum_batching_window_in_seconds", GoValue.vint v)]
       | none => []))

/-- `flattenPipeSourceParameters`. The source handles the six fields below
and has a TODO comment in place of `RabbitMQBrokerParameters` and
`SelfManagedKafkaParameters` handling, so those two fields are never
read. -/
def flattenPipeSourceParameters :
    Option PipeSourceParameters → Except Unit (Option GoMap)
  | none => .ok none
  | some o =>
    exceptBind
      (match o.ActiveMQBrokerParameters with
       | none => .ok []
       | some v =>
         exceptBind (flattenPipeSourceActiveMQBrokerParameters (some v))
           fun fm =>
           .ok [("activemq_broker_parameters",
             GoValue.vlist [mapValue fm])]) fun amqPart =>
    .ok (some (
      amqPart ++
      (match o.DynamoDBStreamParameters with
       | none => []
       | some v => [("dynamodb_stream_parameters", GoValue.vlist
           [mapValue (flattenPipeSourceDynamoDBStreamParameters (some v))])]) ++
      (match o.FilterCriteria with
       | none => []
       | some v => [("filter_criteria", GoValue.vlist
           [mapValue (flattenFilterCriteria (some v))])]) ++
      (match o.KinesisStreamParameters with
       | none => []
       | some v => [("kinesis_stream_parameters", GoValue.vlist
           [mapValue (flattenPipeSourceKinesisStreamParameters (some v))])]) ++
      (match o.ManagedStreamingKafkaParameters with
       | none => []
       | some v => [("managed_streaming_kafka_parameters", GoValue.vlist
           [mapValue (flattenPipeSourceManagedStreamingKafkaParameters
             (some v))])]) ++
      (match o.SqsQueueParameters with
       | none => []
       | some v => [("sqs_queue_parameters", GoValue.vlist
           [mapValue (flattenPipeSourceSqsQueueParameters (some v))])])))

/-! ### Validation layer

The schema in `sourceParametersSchema` attaches
`validation.IntBetween(1, 10000)` to every `batch_size` field, caps the
`filter` list at `MaxItems: 5` and attaches
`validation.StringLenBetween(1, 4096)` to each `pattern`. The
terraform-plugin-sdk validators are embedded by their documented behavior:
`IntBetween(lo, hi)` accepts exactly the integers in the inclusive range,
`StringLenBetween(lo, hi)` accepts exactly the strings whose byte length
(Go `len`) lies in the inclusive range, and the schema host enforces
`MaxItems` and runs each element validator. -/

/-- `validation.IntBetween(lo, hi)` as an acceptance predicate. -/
def IntBetween (lo hi v : Int) : Bool :=
  decide (lo ≤ v) && decide (v ≤ hi)

/-- `validation.StringLenBetween(lo, hi)` as an acceptance predicate
(Go `len` is the UTF-8 byte size). -/
def StringLenBetween (lo hi : Nat) (s : String) : Bool :=
  decide (lo ≤ s.utf8ByteSize) && decide (s.utf8ByteSize ≤ hi)

/-- The `batch_size` validator declared in `sourceParametersSchema`:
`validation.IntBetween(1, 10000)`. -/
def batchSizeValidateFunc : Int → Bool := IntBetween 1 10000

/-- The `batch_size` validator of each of the seven source-parameter
variant blocks of `sourceParametersSchema`, in declaration order; every
block declares `validation.IntBetween(1, 10000)`. -/
def sourceParametersBatchSizeValidators : List (String × (Int → Bool)) :=
  [("activemq_broker_parameters", batchSizeValidateFunc),
   ("dynamodb_stream_parameters", batchSizeValidateFunc),
   ("kinesis_stream_parameters", batchSizeValidateFunc),
   ("managed_streaming_kafka_parameters", batchSizeValidateFunc),
   ("rabbit_mq_broker", batchSizeValidateFunc),
   ("self_managed_kafka", batchSizeValidateFunc),
   ("sqs_queue_parameters", batchSizeValidateFunc)]

/-- `MaxItems: 5` on the `filter` list of `filter_criteria`. -/
def filterMaxItems : Nat := 5

/-- The `pattern` validator of `filter_criteria.filter`:
`validation.StringLenBetween(1, 4096)`. -/
def patternValidateFunc : String → Bool := StringLenBetween 1 4096

/-- Validation-layer acceptance of a `filter_criteria` filter list: the
schema host enforces `MaxItems: 5` and runs the `pattern` validator on
each required pattern. -/
def filterValidationAccepts (patterns : List String) : Bool :=
  decide (patterns.length ≤ filterMaxItems) &&
    patterns.all patternValidateFunc

/-! ### Claims -/

/-- A fully-populated, non-zero `rabbit_mq_broker` configuration node, one
of the seven schema variants of `sourceParametersSchema`. -/
def rabbitConfig : GoMap :=
  [("rabbit_mq_broker", GoValue.vlist [GoValue.vmap
    [("batch_size", GoValue.vint 2),
     ("credentials", GoValue.vlist [GoValue.vmap
       [("basic_auth", GoValue.vstr
         "arn:aws:secretsmanager:us-east-1:123456789012:secret:mq")]]),
     ("maximum_batching_window_in_seconds", GoValue.vint 10),
     ("queue", GoValue.vstr "orders"),
     ("virtual_host", GoValue.vstr "vh")]])]

/-- Claim C1 (failing-input evaluation): the schema declares the
`rabbit_mq_broker` source-parameter variant, but `expandPipeSourceParameters`
has a TODO in place of its handling: a fully-populated, non-zero
`rabbit_mq_broker` configuration node expands to the all-nil typed object,
which flattens back to the empty node, so the round trip does not
reproduce the original node. -/
theorem roundtrip_drops_rabbit_mq_broker :
    expandPipeSourceParameters (some rabbitConfig) =
      .ok (some ⟨none, none, none, none, none, none, none, none⟩) ∧
    flattenPipeSourceParameters
      (some ⟨none, none, none, none, none, none, none, none⟩) =
      .ok (some []) ∧
    lookupKey rabbitConfig "rabbit_mq_broker" ≠ GoValue.vnil ∧
    rabbitConfig ≠ [] := by
  refine ⟨rfl, rfl, ?_, ?_⟩ <;> simp [rabbitConfig, lookupKey]

/-- Claim C4: every flatten function of the mapper maps the nil typed
object to an absent (nil) result, with no error and no panic. -/
theorem flatten_nil_input_absent :
    flattenPipeSourceParameters none = .ok none ∧
    flattenFilterCriteria none = none ∧
    flattenFilters [] = [] ∧
    flattenDeadLetterConfig none = none ∧
    flattenPipeSourceActiveMQBrokerParameters none = .ok none ∧
    flattenMQBrokerAccessCredentialsMemberBasicAuth none = none ∧
    flattenPipeSourceDynamoDBStreamParameters none = none ∧
    flattenPipeSourceKinesisStreamParameters none = none ∧
    flattenPipeSourceManagedStreamingKafkaParameters none = none ∧
    flattenMSKAccessCredentials none = none ∧
    flattenPipeSourceSqsQueueParameters none = none :=
  ⟨rfl, rfl, rfl, rfl, rfl, rfl, rfl, rfl, rfl, rfl, rfl⟩

/-- Claim C2: in `expandPipeSourceKinesisStreamParameters`, a non-empty
`starting_position_timestamp` string that does not parse as RFC 3339 is
accepted without error: the function still returns an object, and its
`StartingPositionTimestamp` is a pointer to the zero-value timestamp,
never nil. -/
theorem expandKinesis_invalid_timestamp_zero (m : GoMap) (s : String)
    (dlcArg : Option GoMap)
    (hlook : lookupKey m "starting_position_timestamp" = GoValue.vstr s)
    (hne : s ≠ "")
    (hbad : timeParseRFC3339 s = none)
    (hdlc : headMapArg m "dead_letter_config" = .ok dlcArg) :
    ∃ obj, expandPipeSourceKinesisStreamParameters (some m) =
        .ok (some obj) ∧
      obj.StartingPositionTimestamp = some zeroGoTime := by
  simp only [expandPipeSourceKinesisStreamParameters, hdlc, exceptBind]
  refine ⟨_, rfl, ?_⟩
  simp [getNonEmptyString, hlook, GoValue.asStr, hne, hbad]

/-- Witness for C2 at a concrete malformed timestamp. -/
theorem expandKinesis_invalid_timestamp_zero_witness :
    ∃ obj, expandPipeSourceKinesisStreamParameters
        (some [("starting_position_timestamp",
          GoValue.vstr "not-a-timestamp")]) = .ok (some obj) ∧
      obj.StartingPositionTimestamp = some zeroGoTime :=
  expandKinesis_invalid_timestamp_zero
    [("starting_position_timestamp", GoValue.vstr "not-a-timestamp")]
    "not-a-timestamp" none rfl (by decide) (by decide) rfl

/-- Claim C3: when both the client-certificate and the SASL/SCRAM-512
sub-fields of a managed-streaming Kafka credentials node are non-empty,
`expandMSKAccessCredentials` returns the client-certificate member (the
first in the declared order) with its value, and never the SASL/SCRAM-512
member. -/
theorem expandMSKAccessCredentials_first_in_order (m : GoMap) (a b : String)
    (ha : lookupKey m "client_certificate_tls_auth" = GoValue.vstr a)
    (hane : a ≠ "")
    (hb : lookupKey m "sasl_scram_512_auth" = GoValue.vstr b)
    (hbne : b ≠ "") :
    expandMSKAccessCredentials (some m) =
      some (.clientCertificateTlsAuth { Value := a }) ∧
    ∀ v, expandMSKAccessCredentials (some m) ≠
      some (.saslScram512Auth v) := by
  have h1 : getNonEmptyString m "client_certificate_tls_auth" = some a := by
    simp [getNonEmptyString, ha, GoValue.asStr, hane]
  constructor
  · simp [expandMSKAccessCredentials, h1]
  · intro v
    simp [expandMSKAccessCredentials, h1]

/-- Witness for C3 with both credential sub-fields set. -/
theorem expandMSKAccessCredentials_first_in_order_witness :
    expandMSKAccessCredentials
      (some [("client_certificate_tls_auth", GoValue.vstr "cert-arn"),
             ("sasl_scram_512_auth", GoValue.vstr "sasl-arn")]) =
      some (.clientCertificateTlsAuth { Value := "cert-arn" }) ∧
    ∀ v, expandMSKAccessCredentials
      (some [("client_certificate_tls_auth", GoValue.vstr "cert-arn"),
             ("sasl_scram_512_auth", GoValue.vstr "sasl-arn")]) ≠
      some (.saslScram512Auth v) :=
  expandMSKAccessCredentials_first_in_order
    [("client_certificate_tls_auth", GoValue.vstr "cert-arn"),
     ("sasl_scram_512_auth", GoValue.vstr "sasl-arn")]
    "cert-arn" "sasl-arn" rfl (by decide) rfl (by decide)

/-- Claim C10: `flattenPipeSourceActiveMQBrokerParameters` performs an
unchecked downcast of the `Credentials` interface to the basic-auth member
type; when `Credentials` is nil or the basic-auth member the panic branch
is unreachable and a map is returned, and on any other member the cast
panics. -/
theorem flattenActiveMQ_total_on_basic_auth
    (o : PipeSourceActiveMQBrokerParameters) :
    ((o.Credentials = none ∨
        ∃ mb, o.Credentials = some (.basicAuth mb)) →
      ∃ tm, flattenPipeSourceActiveMQBrokerParameters (some o) =
        .ok (some tm)) ∧
    (∀ t, o.Credentials = some (.unknown t) →
      flattenPipeSourceActiveMQBrokerParameters (some o) = .error ()) := by
  constructor
  · rintro (h | ⟨mb, h⟩)
    · simp only [flattenPipeSourceActiveMQBrokerParameters, h, exceptBind]
      exact ⟨_, rfl⟩
    · simp only [flattenPipeSourceActiveMQBrokerParameters, h, exceptBind]
      exact ⟨_, rfl⟩
  · intro t h
    simp only [flattenPipeSourceActiveMQBrokerParameters, h, exceptBind]

/-- Witness for C10 at a concrete object whose credentials are absent. -/
theorem flattenActiveMQ_total_on_basic_auth_witness :
    ∃ tm, flattenPipeSourceActiveMQBrokerParameters
      (some ⟨some 5, none, none, some "q"⟩) = .ok (some tm) :=
  (flattenActiveMQ_total_on_basic_auth
    ⟨some 5, none, none, some "q"⟩).1 (Or.inl rfl)

/-- Claim C5: in the per-variant expand functions, integer fields equal to
0 and string fields equal to the empty string are left unset on the typed
result, and a present length-1 list wrapper (here `dead_letter_config`) is
unwrapped so that its nested map populates the nested object. Stated for
`expandPipeSourceKinesisStreamParameters` and
`expandPipeSourceSqsQueueParameters`. -/
theorem expand_zero_omitted_and_wrapper_unwrapped (m m2 inner : GoMap)
    (h1 : lookupKey m "batch_size" = GoValue.vint 0)
    (h2 : lookupKey m "dead_letter_config" =
      GoValue.vlist [GoValue.vmap inner])
    (h3 : lookupKey m "maximum_batching_window_in_seconds" = GoValue.vint 0)
    (h4 : lookupKey m "maximum_record_age_in_seconds" = GoValue.vint 0)
    (h5 : lookupKey m "maximum_retry_attempts" = GoValue.vint 0)
    (h6 : lookupKey m "on_partial_batch_item_failure" = GoValue.vstr "")
    (h7 : lookupKey m "parallelization_factor" = GoValue.vint 0)
    (h8 : lookupKey m "starting_position" = GoValue.vstr "")
    (h9 : lookupKey m "starting_position_timestamp" = GoValue.vstr "")
    (g1 : lookupKey m2 "batch_size" = GoValue.vint 0)
    (g2 : lookupKey m2 "maximum_batching_window_in_seconds" =
      GoValue.vint 0) :
    expandPipeSourceKinesisStreamParameters (some m) =
      .ok (some {
        BatchSize := none
        DeadLetterConfig := some { Arn := getNonEmptyString inner "arn" }
        MaximumBatchingWindowInSeconds := none
        MaximumRecordAgeInSeconds := none
        MaximumRetryAttempts := none
        OnPartialBatchItemFailure := ""
        ParallelizationFactor := none
        StartingPosition := ""
        StartingPositionTimestamp := none }) ∧
    expandPipeSourceSqsQueueParameters (some m2) =
      some { BatchSize := none, MaximumBatchingWindowInSeconds := none } := by
  have hd : headMapArg m "dead_letter_config" = .ok (some inner) := by
    simp [headMapArg, h2, GoValue.asList]
  constructor
  · simp [expandPipeSourceKinesisStreamParameters, hd, exceptBind,
      expandOptInt32, getNonEmptyString, expandDeadLetterConfig,
      h1, h3, h4, h5, h6, h7, h8, h9, GoValue.asInt, GoValue.asStr]
  · simp [expandPipeSourceSqsQueueParameters, expandOptInt32, g1, g2,
      GoValue.asInt]

/-- Witness for C5 at a concrete all-zero node with a wrapped
dead-letter configuration. -/
theorem expand_zero_omitted_and_wrapper_unwrapped_witness :
    expandPipeSourceKinesisStreamParameters
      (some [("batch_size", GoValue.vint 0),
             ("dead_letter_config", GoValue.vlist [GoValue.vmap
               [("arn", GoValue.vstr "arn:aws:sqs:us-east-1:1:dlq")]]),
             ("maximum_batching_window_in_seconds", GoValue.vint 0),
             ("maximum_record_age_in_seconds", GoValue.vint 0),
             ("maximum_retry_attempts", GoValue.vint 0),
             ("on_partial_batch_item_failure", GoValue.vstr ""),
             ("parallelization_factor", GoValue.vint 0),
             ("starting_position", GoValue.vstr ""),
             ("starting_position_timestamp", GoValue.vstr "")]) =
      .ok (some {
        BatchSize := none
        DeadLetterConfig := some { Arn := some "arn:aws:sqs:us-east-1:1:dlq" }
        MaximumBatchingWindowInSeconds := none
        MaximumRecordAgeInSeconds := none
        MaximumRetryAttempts := none
        OnPartialBatchItemFailure := ""
        ParallelizationFactor := none
        StartingPosition := ""
        StartingPositionTimestamp := none }) ∧
    expandPipeSourceSqsQueueParameters
      (some [("batch_size", GoValue.vint 0),
             ("maximum_batching_window_in_seconds", GoValue.vint 0)]) =
      some { BatchSize := none, MaximumBatchingWindowInSeconds := none } :=
  expand_zero_omitted_and_wrapper_unwrapped
    [("batch_size", GoValue.vint 0),
     ("dead_letter_config", GoValue.vlist [GoValue.vmap
       [("arn", GoValue.vstr "arn:aws:sqs:us-east-1:1:dlq")]]),
     ("maximum_batching_window_in_seconds", GoValue.vint 0),
     ("maximum_record_age_in_seconds", GoValue.vint 0),
     ("maximum_retry_attempts", GoValue.vint 0),
     ("on_partial_batch_item_failure", GoValue.vstr ""),
     ("parallelization_factor", GoValue.vint 0),
     ("starting_position", GoValue.vstr ""),
     ("starting_position_timestamp", GoValue.vstr "")]
    [("batch_size", GoValue.vint 0),
     ("maximum_batching_window_in_seconds", GoValue.vint 0)]
    [("arn", GoValue.vstr "arn:aws:sqs:us-east-1:1:dlq")]
    rfl rfl rfl rfl rfl rfl rfl rfl rfl rfl rfl

/-- Claim C6: `expandPipeSourceParameters` does not reject co-presence of
source-parameter variants: with both `activemq_broker_parameters` and
`sqs_queue_parameters` present as non-empty lists of maps (and the other
variant keys absent), it populates both fields of the typed result and
returns normally, with no error. -/
theorem expand_source_accepts_copresence (m a s : GoMap)
    (t1 t2 : List GoValue) (pa : PipeSourceActiveMQBrokerParameters)
    (hamq : lookupKey m "activemq_broker_parameters" =
      GoValue.vlist (GoValue.vmap a :: t1))
    (hsqs : lookupKey m "sqs_queue_parameters" =
      GoValue.vlist (GoValue.vmap s :: t2))
    (hd : lookupKey m "dynamodb_stream_parameters" = GoValue.vnil)
    (hf : lookupKey m "filter_criteria" = GoValue.vnil)
    (hk : lookupKey m "kinesis_stream_parameters" = GoValue.vnil)
    (hmsk : lookupKey m "managed_streaming_kafka_parameters" = GoValue.vnil)
    (hexp : expandPipeSourceActiveMQBrokerParameters (some a) =
      .ok (some pa)) :
    expandPipeSourceParameters (some m) =
      .ok (some {
        ActiveMQBrokerParameters := some pa
        DynamoDBStreamParameters := none
        FilterCriteria := none
        KinesisStreamParameters := none
        ManagedStreamingKafkaParameters := none
        RabbitMQBrokerParameters := none
        SelfManagedKafkaParameters := none
        SqsQueueParameters := expandPipeSourceSqsQueueParameters (some s) })
    := by
  simp [expandPipeSourceParameters, expandVariant, expandVariantP,
    headMapArg, hamq, hsqs, hd, hf, hk, hmsk, hexp, exceptBind,
    GoValue.asList]

/-- Witness for C6 at a concrete node holding both an ActiveMQ and an SQS
variant. -/
theorem expand_source_accepts_copresence_witness :
    expandPipeSourceParameters
      (some [("activemq_broker_parameters", GoValue.vlist [GoValue.vmap
               [("queue_name", GoValue.vstr "q")]]),
             ("sqs_queue_parameters", GoValue.vlist [GoValue.vmap
               [("batch_size", GoValue.vint 3)]])]) =
      .ok (some {
        ActiveMQBrokerParameters := some {
          BatchSize := none
          Credentials := none
          MaximumBatchingWindowInSeconds := none
          QueueName := some "q" }
        DynamoDBStreamParameters := none
        FilterCriteria := none
        KinesisStreamParameters := none
        ManagedStreamingKafkaParameters := none
        RabbitMQBrokerParameters := none
        SelfManagedKafkaParameters := none
        SqsQueueParameters := expandPipeSourceSqsQueueParameters
          (some [("batch_size", GoValue.vint 3)]) }) :=
  expand_source_accepts_copresence
    [("activemq_broker_parameters", GoValue.vlist [GoValue.vmap
       [("queue_name", GoValue.vstr "q")]]),
     ("sqs_queue_parameters", GoValue.vlist [GoValue.vmap
       [("batch_size", GoValue.vint 3)]])]
    [("queue_name", GoValue.vstr "q")]
    [("batch_size", GoValue.vint 3)]
    [] []
    { BatchSize := none, Credentials := none,
      MaximumBatchingWindowInSeconds := none, QueueName := some "q" }
    rfl rfl rfl rfl rfl rfl rfl

/-- Claim C7: the `batch_size` validator declared for every
source-parameter variant accepts an integer exactly when it lies in the
inclusive range 1 to 10000; 0, 10001 and -2 are rejected by the validation
layer, while the mapper itself accepts these values without error (0 is
omitted, out-of-range values are copied). -/
theorem batch_size_validation_bounds :
    (∀ p ∈ sourceParametersBatchSizeValidators, ∀ n : Int,
      p.2 n = true ↔ (1 ≤ n ∧ n ≤ 10000)) ∧
    batchSizeValidateFunc 0 = false ∧
    batchSizeValidateFunc 10001 = false ∧
    batchSizeValidateFunc (-2) = false ∧
    expandPipeSourceSqsQueueParameters
      (some [("batch_size", GoValue.vint 0)]) =
      some { BatchSize := none, MaximumBatchingWindowInSeconds := none } ∧
    expandPipeSourceSqsQueueParameters
      (some [("batch_size", GoValue.vint 10001)]) =
      some { BatchSize := some 10001,
             MaximumBatchingWindowInSeconds := none } ∧
    expandPipeSourceSqsQueueParameters
      (some [("batch_size", GoValue.vint (-2))]) =
      some { BatchSize := some (-2),
             MaximumBatchingWindowInSeconds := none } := by
  refine ⟨?_, by decide, by decide, by decide, by decide, by decide,
    by decide⟩
  intro p hp n
  fin_cases hp <;>
    simp [batchSizeValidateFunc, IntBetween, Bool.and_eq_true,
      decide_eq_true_eq]

/-- Witness for C7: an in-range value is accepted. -/
theorem batch_size_validation_bounds_witness :
    batchSizeValidateFunc 100 = true :=
  (batch_size_validation_bounds.1
    ("sqs_queue_parameters", batchSizeValidateFunc)
    (by simp [sourceParametersBatchSizeValidators]) 100).mpr (by decide)

/-- Claim C8: the `filter_criteria` schema accepts a filter list exactly
when it has at most 5 entries, each with a pattern of byte length between
1 and 4096 inclusive; in particular any 6-entry list is rejected. -/
theorem filter_criteria_validation_bounds :
    (∀ ps : List String, filterValidationAccepts ps = true ↔
      (ps.length ≤ 5 ∧
        ∀ p ∈ ps, 1 ≤ p.utf8ByteSize ∧ p.utf8ByteSize ≤ 4096)) ∧
    (∀ ps : List String, ps.length = 6 →
      filterValidationAccepts ps = false) := by
  have main : ∀ ps : List String, filterValidationAccepts ps = true ↔
      (ps.length ≤ 5 ∧
        ∀ p ∈ ps, 1 ≤ p.utf8ByteSize ∧ p.utf8ByteSize ≤ 4096) := by
    intro ps
    simp [filterValidationAccepts, filterMaxItems, patternValidateFunc,
      StringLenBetween, List.all_eq_true, Bool.and_eq_true,
      decide_eq_true_eq]
  refine ⟨main, ?_⟩
  intro ps h6
  cases hacc : filterValidationAccepts ps with
  | false => rfl
  | true =>
    have hlen := ((main ps).mp hacc).1
    omega

/-- Witness for C8: a 5-entry list of non-empty patterns is accepted. -/
theorem filter_criteria_validation_bounds_witness :
    filterValidationAccepts ["a", "b", "c", "d", "e"] = true :=
  (filter_criteria_validation_bounds.1 ["a", "b", "c", "d", "e"]).mpr
    (by decide)

/-- Claim C9: `flattenFilters` maps the empty list to the empty (nil)
result and otherwise preserves count and order, the i-th output being the
flattening of the i-th input filter; the flattening of a filter carries
the pattern key exactly when its pattern is non-nil. -/
theorem flattenFilters_length_order (l : List Filter) :
    (l = [] → flattenFilters l = []) ∧
    (flattenFilters l).length = l.length ∧
    (∀ i : Nat, (flattenFilters l)[i]? =
      (l[i]?).map fun f => GoValue.vmap (flattenFilter f)) ∧
    (∀ f : Filter, hasKey (flattenFilter f) "pattern" = f.Pattern.isSome)
    := by
  refine ⟨?_, ?_, ?_, ?_⟩
  · intro h
    simp [h, flattenFilters]
  · cases l with
    | nil => simp [flattenFilters]
    | cons a t => simp [flattenFilters]
  · intro i
    cases l with
    | nil => simp [flattenFilters]
    | cons a t =>
      have hmap : flattenFilters (a :: t) =
          (a :: t).map fun o => GoValue.vmap (flattenFilter o) := by
        simp [flattenFilters]
      rw [hmap, List.getElem?_map]
  · intro f
    cases h : f.Pattern <;> simp [flattenFilter, h, hasKey]

/-- Witness for C9 at a concrete two-filter list. -/
theorem flattenFilters_length_order_witness :
    (flattenFilters [{ Pattern := some "p" }, { Pattern := none }]).length
      = 2 ∧
    (flattenFilters [{ Pattern := some "p" }, { Pattern := none }])[0]? =
      some (GoValue.vmap (flattenFilter { Pattern := some "p" })) :=
  ⟨(flattenFilters_length_order
      [{ Pattern := some "p" }, { Pattern := none }]).2.1,
   by
    have := (flattenFilters_length_order
      [{ Pattern := some "p" }, { Pattern := none }]).2.2.1 0
    simpa using this⟩

end Pipes
